import Mathlib

/-!
# Genesis assembly of the ChainX node

A shallow embedding of `cli/src/chain_spec.rs` (the genesis assembly engine)
and of `xpallets/transaction-fee/src/types.rs` (fee-detail composition).

Machine integers: the runtime's `Balance` is `u128`; values are embedded as
naturals and the wrapping of Rust release-profile arithmetic is made explicit
as reduction modulo `2 ^ 128` at every `u128` operation the source performs.

Code of the repository that is referenced by `chain_spec.rs` but lives in
crates outside the covered sources (`xp_protocol` constants, the runtime
currency constants, `sp_core` seed derivation, `crate::genesis::assets` and
`crate::genesis::bitcoin`) is modelled from the specification; each such
definition carries a doc comment starting with `Modelled from the spec:`.
-/

namespace ChainSpec

/-- `chainx_primitives::Balance` (`u128`); values as naturals, wrapping
explicit where the source performs `u128` arithmetic. -/
abbrev Balance := Nat

/-- `chainx_primitives::AccountId`: an opaque fixed-length identifier.
Embedded as a string: seed-derived accounts are their tagged derivation
strings, live accounts are their hex literals. -/
abbrev AccountId := String

/-- `chainx_primitives::AssetId`: a numeric asset identifier. -/
abbrev AssetId := Nat

/-- `chainx_primitives::ReferralId` (`Vec<u8>`): a free-form byte string,
embedded as a string. -/
abbrev ReferralId := String

/-- The modulus of `u128` arithmetic. -/
def U128_MOD : Nat := 2 ^ 128

/-- Wrapping of a `u128` result: the `*` and `+=` used by `chain_spec.rs`
compile to wrapping operations under the default Rust release profile. -/
def wrap (n : Nat) : Balance := n % U128_MOD

/-- Modelled from the spec: `PCX` of `xp_protocol` (not under `src/`).
Spec §3: "Asset id `1` is reserved for the native currency". -/
def PCX : AssetId := 1

/-- Modelled from the spec: `X_BTC` of `xp_protocol` (not under `src/`), the
Bitcoin-backed asset id; the spec fixes only that it differs from the native
id. -/
def X_BTC : AssetId := 2

/-- Modelled from the spec: `PCX_DECIMALS` of `xp_protocol` (not under
`src/`), the native-currency decimals constant (canonically 8 for PCX). -/
def PCX_DECIMALS : Nat := 8

/-- Modelled from the spec: `DOLLARS` of `chainx_runtime::constants::currency`
(not under `src/`): one native unit scaled by the native decimals. -/
def DOLLARS : Balance := 10 ^ PCX_DECIMALS

/-- Modelled from the spec: `DEV_DOLLARS` of
`dev_runtime::constants::currency` (not under `src/`): same scale as
`DOLLARS`. -/
def DEV_DOLLARS : Balance := 10 ^ PCX_DECIMALS

/-- Modelled from the spec: `DEV_DAYS` of `dev_runtime::constants::time` (not
under `src/`): blocks per day; the exact value is opaque to the assembler. -/
def DEV_DAYS : Nat := 14400

/-- The key schemes used by the node: the sr25519 stake-account scheme and
the four session-key schemes (`BabeId`, `GrandpaId`, `ImOnlineId`,
`AuthorityDiscoveryId`). -/
inductive KeyScheme where
  | sr25519
  | babe
  | grandpa
  | imOnline
  | authorityDiscovery
deriving DecidableEq, Inhabited, Repr

/-- A public key of one of the schemes; the payload is the derivation data
it was produced from. -/
structure PubKey where
  scheme : KeyScheme
  data : String
deriving DecidableEq, Inhabited, Repr

/-- `get_from_seed::<TPublic>(seed)`:
`TPublic::Pair::from_string(&format!("//{}", seed), None).expect(..).public()`.
Modelled from the spec: the `sp_core` pair derivation is not under `src/`;
per §4.1 it is a deterministic one-way function of the scheme and the seed
alone, embodied here by the tagged derivation string (the source formats the
seed as `"//{seed}"` before deriving). -/
def get_from_seed (scheme : KeyScheme) (seed : String) : PubKey :=
  { scheme := scheme, data := "//" ++ seed }

/-- `AccountPublic::from(public).into_account()`. Modelled from the spec: a
deterministic one-way transform from the stake-account public key to the
account identifier. -/
def into_account (pk : PubKey) : AccountId :=
  "account:" ++ pk.data

/-- `get_account_id_from_seed::<sr25519::Public>(seed)`: the account derived
from the sr25519 public key of the seed. -/
def get_account_id_from_seed (seed : String) : AccountId :=
  into_account (get_from_seed KeyScheme.sr25519 seed)

/-- `AuthorityKeysTuple =
((AccountId, ReferralId), BabeId, GrandpaId, ImOnlineId, AuthorityDiscoveryId)`. -/
structure AuthorityKeysTuple where
  validator : AccountId
  referral_id : ReferralId
  babe : PubKey
  grandpa : PubKey
  im_online : PubKey
  authority_discovery : PubKey
deriving DecidableEq, Inhabited, Repr

/-- `authority_keys_from_seed(seed)`: the staking account and referral id
(the seed bytes themselves) together with the four session public keys, all
derived from the one seed. -/
def authority_keys_from_seed (seed : String) : AuthorityKeysTuple :=
  { validator := get_account_id_from_seed seed
    referral_id := seed
    babe := get_from_seed KeyScheme.babe seed
    grandpa := get_from_seed KeyScheme.grandpa seed
    im_online := get_from_seed KeyScheme.imOnline seed
    authority_discovery := get_from_seed KeyScheme.authorityDiscovery seed }

/-- `fn balance(input: Balance, decimals: u8) -> Balance`:
`input * 10_u128.pow(decimals as u32)`, a wrapping `u128` multiplication. -/
def balance (input : Balance) (decimals : Nat) : Balance :=
  wrap (input * 10 ^ decimals)

/-- `xp_assets_registrar::Chain`: the origin-chain tag of an asset.
Modelled from the spec: the enumeration is not under `src/`; the engine only
compares tags against `Chain::Bitcoin`. -/
inductive Chain where
  | chainX
  | bitcoin
  | ethereum
  | polkadot
deriving DecidableEq, Inhabited, Repr

/-- `xp_protocol::NetworkType`: the network tag recorded in
`XSystemConfig::network_props`. -/
inductive NetworkType where
  | testnet
  | mainnet
deriving DecidableEq, Inhabited, Repr

/-- `xpallet_gateway_common::types::TrusteeInfoConfig`. Modelled from the
spec: threshold-signature configuration parameters, forwarded verbatim. -/
structure TrusteeInfoConfig where
  min_trustee_count : Nat
  max_trustee_count : Nat
deriving DecidableEq, Inhabited, Repr

/-- `crate::genesis::bitcoin::BtcTrusteeParams`. Modelled from the spec: one
trustee entry; the builders inspect only its first public-key component
(`i.0`), the remaining components are opaque. -/
structure BtcTrusteeParams where
  first : AccountId
  about : List Nat
  hot_key : List Nat
  cold_key : List Nat
deriving DecidableEq, Inhabited, Repr

/-- `crate::genesis::bitcoin::BtcGenesisParams`. Modelled from the spec §6:
the pre-parsed Bitcoin genesis checkpoint (network identifier, confirmation
depth, block hash, block header, height), opaque beyond field extraction;
the source's `hash()` and `header()` accessors are the fields here. -/
structure BtcGenesisParams where
  network : Nat
  confirmation_number : Nat
  hash : Nat
  header : Nat
  height : Nat
deriving DecidableEq, Inhabited, Repr

/-- `xpallet_gateway_bitcoin::BtcParams` as constructed by `BtcParams::new`. -/
structure BtcParams where
  max_bits : Nat
  block_max_future : Nat
  target_timespan_seconds : Nat
  target_spacing_seconds : Nat
  retargeting_factor : Nat
deriving DecidableEq, Inhabited, Repr

/-- `BtcParams::new(max_bits, block_max_future, target_timespan_seconds,
target_spacing_seconds, retargeting_factor)`. -/
def BtcParams.new (max_bits block_max_future target_timespan_seconds
    target_spacing_seconds retargeting_factor : Nat) : BtcParams :=
  { max_bits := max_bits
    block_max_future := block_max_future
    target_timespan_seconds := target_timespan_seconds
    target_spacing_seconds := target_spacing_seconds
    retargeting_factor := retargeting_factor }

/-- `xpallet_gateway_bitcoin::BtcTxVerifier`; the genesis builders always
select `Recover`. -/
inductive BtcTxVerifier where
  | recover
  | runtimeInterface
deriving DecidableEq, Inhabited, Repr

/-- `dev::SessionKeys` and `malan::SessionKeys` share this shape: the
per-validator bundle of the four session public keys. -/
structure SessionKeys where
  grandpa : PubKey
  babe : PubKey
  im_online : PubKey
  authority_discovery : PubKey
deriving DecidableEq, Inhabited, Repr

/-- `dev_session_keys(babe, grandpa, im_online, authority_discovery)`; note
the argument order differs from the field order, exactly as in the source. -/
def dev_session_keys (babe grandpa im_online authority_discovery : PubKey) :
    SessionKeys :=
  { grandpa := grandpa
    babe := babe
    im_online := im_online
    authority_discovery := authority_discovery }

/-- `malan_session_keys(babe, grandpa, im_online, authority_discovery)`. -/
def malan_session_keys (babe grandpa im_online authority_discovery : PubKey) :
    SessionKeys :=
  { grandpa := grandpa
    babe := babe
    im_online := im_online
    authority_discovery := authority_discovery }

/-- `crate::genesis::assets::AssetParams`. Modelled from the spec §4.2: an
asset descriptor (id, chain tag, decimal precision, restriction flags as a
bit-set). -/
structure AssetParams where
  id : AssetId
  chain : Chain
  decimals : Nat
  restrictions : Nat
deriving DecidableEq, Inhabited, Repr

/-- Modelled from the spec: `crate::genesis::assets::pcx()` (not under
`src/`), the native-asset descriptor whose first component is the native
asset id. -/
def pcx : AssetParams :=
  { id := PCX, chain := Chain.chainX, decimals := PCX_DECIMALS,
    restrictions := 0 }

/-- Modelled from the spec: `crate::genesis::assets::init_assets` (not under
`src/`); per §4.2 a pure transform returning the registry list consumed by
the asset-registrar subsystem together with the per-asset restriction flags,
the native id being excluded from the restriction output. -/
def init_assets (assets : List AssetParams) :
    List AssetParams × List (AssetId × Nat) :=
  (assets,
   (assets.filter (fun a => a.id != PCX)).map (fun a => (a.id, a.restrictions)))

/-- Modelled from the spec: `crate::genesis::assets::genesis_assets` (not
under `src/`): the declarative asset list of every profile, holding the
native descriptor and the Bitcoin-backed descriptor. -/
def genesis_assets : List AssetParams :=
  [pcx,
   { id := X_BTC, chain := Chain.bitcoin, decimals := 8, restrictions := 0 }]

/-- The `endowed_gen!` macro: builds the one-key endowment map
`{ pcx().0 ↦ [(account_of seed, balance(value, PCX_DECIMALS)), ...] }`. -/
def endowed_gen (seed_values : List (String × Balance)) :
    List (AssetId × List (AccountId × Balance)) :=
  [(pcx.id,
    seed_values.map (fun sv =>
      (get_account_id_from_seed sv.1, balance sv.2 PCX_DECIMALS)))]

/-- `dev::GenesisConfig` as assembled by `build_genesis`: the fields of the
struct literal, in source order, with the framework defaults (`vec![]`,
`Default::default()`) elided where they carry no data. -/
structure DevGenesisConfig where
  code : List Nat
  tech_comm_members : List AccountId
  phragmen_members : List (AccountId × Balance)
  session_keys : List (AccountId × AccountId × SessionKeys)
  balances : List (AccountId × Balance)
  sudo_key : AccountId
  network_props : NetworkType
  assets : List AssetParams
  assets_restrictions : List (AssetId × Nat)
  assets_endowed : List (AssetId × List (AccountId × Balance))
  trustees : List (Chain × TrusteeInfoConfig × List BtcTrusteeParams)
  genesis_trustees : List AccountId
  network_id : Nat
  confirmation_number : Nat
  genesis_hash : Nat
  genesis_info : Nat × Nat
  params_info : BtcParams
  btc_withdrawal_fee : Balance
  max_withdrawal_count : Nat
  verifier : BtcTxVerifier
  validators : List (AccountId × ReferralId × Balance)
  validator_count : Nat
  sessions_per_era : Nat
  vesting_account : AccountId
  glob_dist_ratio : Nat × Nat
  mining_ratio : Nat × Nat
  minimum_penalty : Balance
  claim_restrictions : List (AssetId × Nat × Nat)
  mining_power_map : List (AssetId × Nat)
  trading_pairs : List (AssetId × AssetId × Nat × Nat × Nat × Bool)
  initial_authorities_endowed : Balance
  root_endowed : Balance
deriving DecidableEq, Inhabited, Repr

/-- `malan::GenesisConfig` as assembled by `mainnet_genesis`; same shape as
the dev config plus the `candidate_requirement` scalar of
`XStakingConfig`. -/
structure MalanGenesisConfig where
  code : List Nat
  tech_comm_members : List AccountId
  session_keys : List (AccountId × AccountId × SessionKeys)
  balances : List (AccountId × Balance)
  sudo_key : AccountId
  network_props : NetworkType
  assets : List AssetParams
  assets_restrictions : List (AssetId × Nat)
  assets_endowed : List (AssetId × List (AccountId × Balance))
  trustees : List (Chain × TrusteeInfoConfig × List BtcTrusteeParams)
  genesis_trustees : List AccountId
  network_id : Nat
  confirmation_number : Nat
  genesis_hash : Nat
  genesis_info : Nat × Nat
  params_info : BtcParams
  btc_withdrawal_fee : Balance
  max_withdrawal_count : Nat
  verifier : BtcTxVerifier
  validators : List (AccountId × ReferralId × Balance)
  validator_count : Nat
  sessions_per_era : Nat
  vesting_account : AccountId
  glob_dist_ratio : Nat × Nat
  mining_ratio : Nat × Nat
  minimum_penalty : Balance
  candidate_requirement : Balance × Balance
  claim_restrictions : List (AssetId × Nat × Nat)
  mining_power_map : List (AssetId × Nat)
  trading_pairs : List (AssetId × AssetId × Nat × Nat × Nat × Bool)
  initial_authorities_endowed : Balance
  root_endowed : Balance
deriving DecidableEq, Inhabited, Repr

/-- The Bitcoin genesis-trustee extraction shared verbatim by
`build_genesis` and `mainnet_genesis`:
`trustees.iter().find_map(|(chain, _, trustee_params)| if *chain ==
Chain::Bitcoin { Some(trustee_params.iter().map(|i| (i.0).clone()).collect())
} else { None })`; the source's `.expect("bitcoin trustees generation can not
fail; qed")` panic is the `none` of this `Option`. -/
def btc_trustee_extract
    (trustees : List (Chain × TrusteeInfoConfig × List BtcTrusteeParams)) :
    Option (List AccountId) :=
  trustees.findSome? (fun t =>
    if t.1 = Chain.bitcoin then some (t.2.2.map (fun i => i.first)) else none)

/-- The trustee-key list of the first Bitcoin entry, before extraction of the
first components; used to state properties of `btc_trustee_extract`. -/
def first_bitcoin_params
    (trustees : List (Chain × TrusteeInfoConfig × List BtcTrusteeParams)) :
    Option (List BtcTrusteeParams) :=
  trustees.findSome? (fun t =>
    if t.1 = Chain.bitcoin then some t.2.2 else none)

/-- `ENDOWMENT` of `build_genesis`: `10_000_000 * DEV_DOLLARS`. -/
def ENDOWMENT : Balance := 10000000 * DEV_DOLLARS

/-- `STASH` of `build_genesis`: `100 * DEV_DOLLARS`. -/
def STASH : Balance := 100 * DEV_DOLLARS

/-- `STAKING_LOCKED` of `build_genesis`: `1_000 * DEV_DOLLARS`. -/
def STAKING_LOCKED : Balance := 1000 * DEV_DOLLARS

/-- `fn build_genesis(..) -> dev::GenesisConfig`, the parameterized genesis
assembler of the development, benchmarks and local-testnet profiles. The two
`.expect("PCX endowed; qed")` lookups of the source read the same map key and
are the single `Option` bind here; the `.expect("bitcoin trustees generation
can not fail; qed")` is the second bind. A `panic` aborts assembly, hence the
`Option` result: `none` is the fatal abort, no partial configuration exists. -/
def build_genesis
    (wasm_binary : List Nat)
    (initial_authorities : List AuthorityKeysTuple)
    (root_key : AccountId)
    (vesting_account : AccountId)
    (assets : List AssetParams)
    (endowed : List (AssetId × List (AccountId × Balance)))
    (bitcoin : BtcGenesisParams)
    (trustees : List (Chain × TrusteeInfoConfig × List BtcTrusteeParams)) :
    Option DevGenesisConfig := do
  let (assets, assets_restrictions) := init_assets assets
  let pcx_endowed ← endowed.lookup PCX
  let endowed_accounts := pcx_endowed.map Prod.fst
  let num_endowed_accounts := endowed_accounts.length
  let total_endowed :=
    pcx_endowed.foldl (fun acc _ => wrap (acc + ENDOWMENT)) 0
  let balances := pcx_endowed.map (fun kv => (kv.1, ENDOWMENT))
  let phragmen_members :=
    (endowed_accounts.take ((num_endowed_accounts + 1) / 2)).map
      (fun member => (member, STASH))
  let tech_comm_members :=
    endowed_accounts.take ((num_endowed_accounts + 1) / 2)
  let assets_endowed := endowed.filter (fun kv => kv.1 != PCX)
  let initial_authorities_endowed :=
    initial_authorities.foldl (fun acc _ => wrap (acc + STAKING_LOCKED)) 0
  let validators :=
    initial_authorities.map (fun a => (a.validator, a.referral_id,
      STAKING_LOCKED))
  let btc_genesis_trustees ← btc_trustee_extract trustees
  let _ := total_endowed
  some
    { code := wasm_binary
      tech_comm_members := tech_comm_members
      phragmen_members := phragmen_members
      session_keys := initial_authorities.map (fun x =>
        (x.validator, x.validator,
         dev_session_keys x.babe x.grandpa x.im_online x.authority_discovery))
      balances := balances
      sudo_key := root_key
      network_props := NetworkType.testnet
      assets := assets
      assets_restrictions := assets_restrictions
      assets_endowed := assets_endowed
      trustees := trustees
      genesis_trustees := btc_genesis_trustees
      network_id := bitcoin.network
      confirmation_number := bitcoin.confirmation_number
      genesis_hash := bitcoin.hash
      genesis_info := (bitcoin.header, bitcoin.height)
      params_info := BtcParams.new 486604799 (2 * 60 * 60)
        (2 * 7 * 24 * 60 * 60) (10 * 60) 4
      btc_withdrawal_fee := 500000
      max_withdrawal_count := 100
      verifier := BtcTxVerifier.recover
      validators := validators
      validator_count := 50
      sessions_per_era := 12
      vesting_account := vesting_account
      glob_dist_ratio := (12, 88)
      mining_ratio := (10, 90)
      minimum_penalty := 2 * DOLLARS
      claim_restrictions := [(X_BTC, 10, DEV_DAYS * 7)]
      mining_power_map := [(X_BTC, 400)]
      trading_pairs := [(PCX, X_BTC, 9, 2, 100000, true)]
      initial_authorities_endowed := initial_authorities_endowed
      root_endowed := 0 }

/-- `STAKING_LOCKED` of `mainnet_genesis`: `100_000 * DOLLARS`. -/
def STAKING_LOCKED_MAINNET : Balance := 100000 * DOLLARS

/-- `ROOT_ENDOWED` of `mainnet_genesis`: `10_000_000 * DOLLARS`. -/
def ROOT_ENDOWED_MAINNET : Balance := 10000000 * DOLLARS

/-- The second technical-committee member of `mainnet_genesis`
(`hex!["682e..."]`), which is also pushed onto the balances vector. -/
def MAINNET_SECOND_TECH_COMM : AccountId :=
  "0x682ee67d1c6f6c5db7b3f155f6c31ccadcc373a1178d0fd8e1d2391075e8b424"

/-- The technical-committee members of `mainnet_genesis` (four hex account
literals of the source). -/
def mainnet_tech_comm_members : List AccountId :=
  ["0x485bf22c979d4a61643f57a2006ff4fb7447a2a8ed905997c5f6b0230f39b860",
   MAINNET_SECOND_TECH_COMM,
   "0x2e2b928d39b7a9c8688509927e17031001fab604557db093ead5069474e0584e",
   "0xe5d8bb656b124beb40990ef9346c441f888981ec7e0d4c55c9c72c176aec5290"]

/-- `fn mainnet_genesis(..) -> malan::GenesisConfig`, the genesis assembler
of the live/fork profile (`fork_config_raw`). Its only fallible step is the
Bitcoin trustee extraction (`.expect(..)`), made `Option` here. Note the
source inserts asset id `1` into `assets_endowed` with the native balances
vector. -/
def mainnet_genesis
    (wasm_binary : List Nat)
    (initial_authorities : List AuthorityKeysTuple)
    (root_key : AccountId)
    (vesting_account : AccountId)
    (assets : List AssetParams)
    (bitcoin : BtcGenesisParams)
    (trustees : List (Chain × TrusteeInfoConfig × List BtcTrusteeParams)) :
    Option MalanGenesisConfig := do
  let (assets, assets_restrictions) := init_assets assets
  let initial_authorities_len := initial_authorities.length
  let tech_comm_members := mainnet_tech_comm_members
  let balances :=
    initial_authorities.map (fun a => (a.validator, STAKING_LOCKED_MAINNET))
      ++ [(root_key, ROOT_ENDOWED_MAINNET),
          (MAINNET_SECOND_TECH_COMM, ROOT_ENDOWED_MAINNET)]
  let initial_authorities_endowed :=
    wrap (initial_authorities_len * STAKING_LOCKED_MAINNET)
  let validators :=
    initial_authorities.map (fun a => (a.validator, a.referral_id,
      STAKING_LOCKED_MAINNET))
  let assets_endowed : List (AssetId × List (AccountId × Balance)) :=
    [(1, balances)]
  let btc_genesis_trustees ← btc_trustee_extract trustees
  some
    { code := wasm_binary
      tech_comm_members := tech_comm_members
      session_keys := initial_authorities.map (fun x =>
        (x.validator, x.validator,
         malan_session_keys x.babe x.grandpa x.im_online
           x.authority_discovery))
      balances := balances
      sudo_key := root_key
      network_props := NetworkType.mainnet
      assets := assets
      assets_restrictions := assets_restrictions
      assets_endowed := assets_endowed
      trustees := trustees
      genesis_trustees := btc_genesis_trustees
      network_id := bitcoin.network
      confirmation_number := bitcoin.confirmation_number
      genesis_hash := bitcoin.hash
      genesis_info := (bitcoin.header, bitcoin.height)
      params_info := BtcParams.new 486604799 (2 * 60 * 60)
        (2 * 7 * 24 * 60 * 60) (10 * 60) 4
      btc_withdrawal_fee := 500000
      max_withdrawal_count := 100
      verifier := BtcTxVerifier.recover
      validators := validators
      validator_count := initial_authorities_len
      sessions_per_era := 12
      vesting_account := vesting_account
      glob_dist_ratio := (12, 88)
      mining_ratio := (10, 90)
      minimum_penalty := 100 * DOLLARS
      candidate_requirement := (100 * DOLLARS, 1000 * DOLLARS)
      claim_restrictions := [(X_BTC, 10, DEV_DAYS * 7)]
      mining_power_map := [(X_BTC, 400)]
      trading_pairs := [(PCX, X_BTC, 9, 2, 100000, true)]
      initial_authorities_endowed := initial_authorities_endowed
      root_endowed := ROOT_ENDOWED_MAINNET }

/-- Modelled from the spec: the parsed content of
`res/btc_genesis_params_testnet.json` (a static resource, not under `src/`);
its field values are opaque to the assembler beyond extraction. -/
def btc_genesis_params_testnet : BtcGenesisParams :=
  { network := 1, confirmation_number := 6, hash := 0, header := 0,
    height := 0 }

/-- Modelled from the spec: the ordered trustee entries of the Bitcoin triple
of `crate::genesis::bitcoin::local_testnet_trustees` (not under `src/`);
per §4.5 a non-empty ordered trustee-key list. -/
def local_testnet_btc_trustee_params : List BtcTrusteeParams :=
  [{ first := get_account_id_from_seed "Alice", about := [1],
     hot_key := [1], cold_key := [1] },
   { first := get_account_id_from_seed "Bob", about := [2],
     hot_key := [2], cold_key := [2] },
   { first := get_account_id_from_seed "Charlie", about := [3],
     hot_key := [3], cold_key := [3] }]

/-- Modelled from the spec: `crate::genesis::bitcoin::local_testnet_trustees`
(not under `src/`); per §4.5 a single Bitcoin entry holding the
threshold-signature configuration and a non-empty ordered trustee list. -/
def local_testnet_trustees :
    List (Chain × TrusteeInfoConfig × List BtcTrusteeParams) :=
  [(Chain.bitcoin,
    { min_trustee_count := 3, max_trustee_count := 15 },
    local_testnet_btc_trustee_params)]

/-- The runtime bytecode blob handed to the builders; its bytes are opaque to
the assembler. -/
def dev_wasm : List Nat := [0, 97, 115, 109]

/-- `endowed_balance` of `development_config` and `local_testnet_config`:
`50 * DEV_DOLLARS`. -/
def endowed_balance : Balance := 50 * DEV_DOLLARS

/-- The endowment table of `development_config` (the `endowed_gen!` call with
the four development seeds). -/
def development_endowed : List (AssetId × List (AccountId × Balance)) :=
  endowed_gen
    [("Alice", endowed_balance), ("Bob", endowed_balance),
     ("Alice//stash", endowed_balance), ("Bob//stash", endowed_balance)]

/-- The genesis constructor of `development_config`: `build_genesis` on the
single Alice authority and the four-account endowment table. -/
def development_genesis : Option DevGenesisConfig :=
  build_genesis dev_wasm [authority_keys_from_seed "Alice"]
    (get_account_id_from_seed "Alice") (get_account_id_from_seed "vesting")
    genesis_assets development_endowed btc_genesis_params_testnet
    local_testnet_trustees

/-- The twelve seeds of the local-testnet endowment table, in source order. -/
def local_testnet_seeds : List String :=
  ["Alice", "Bob", "Charlie", "Dave", "Eve", "Ferdie",
   "Alice//stash", "Bob//stash", "Charlie//stash", "Dave//stash",
   "Eve//stash", "Ferdie//stash"]

/-- The endowment table of `local_testnet_config` (the `endowed_gen!` call
with the twelve seeds, each at `endowed_balance`). -/
def local_testnet_endowed : List (AssetId × List (AccountId × Balance)) :=
  endowed_gen (local_testnet_seeds.map (fun s => (s, endowed_balance)))

/-- The two initial authorities of `local_testnet_config`. -/
def local_testnet_authorities : List AuthorityKeysTuple :=
  [authority_keys_from_seed "Alice", authority_keys_from_seed "Bob"]

/-- The genesis constructor of `local_testnet_config`: `build_genesis` on the
two authorities and the twelve-account endowment table. -/
def local_testnet_genesis : Option DevGenesisConfig :=
  build_genesis dev_wasm local_testnet_authorities
    (get_account_id_from_seed "Alice") (get_account_id_from_seed "vesting")
    genesis_assets local_testnet_endowed btc_genesis_params_testnet
    local_testnet_trustees

/-- `root_key` (and `vesting_key`) of `fork_config_raw`: the hex account
literal of the source. -/
def fork_root_key : AccountId :=
  "0x485bf22c979d4a61643f57a2006ff4fb7447a2a8ed905997c5f6b0230f39b860"

/-- The two initial authority tuples of `fork_config_raw`, with the hex key
literals of the source as the opaque key payloads. -/
def fork_initial_authorities : List AuthorityKeysTuple :=
  [{ validator :=
       "0x1880c73bc154852f900b5db6b3ee9d98c9dd39120f9702ded76f07af558b7d53"
     referral_id := "hacpy1"
     babe := { scheme := KeyScheme.babe, data :=
       "0x0252636a2254619db458c1fe40e91ca39a7bb52bf8c99bd8a4efef458360ba0b" }
     grandpa := { scheme := KeyScheme.grandpa, data :=
       "0xa78577fd7eacdf075bd80fb8dcdbc7c745a43bb2e0785a5a2a9cb8ab142cd9b3" }
     im_online := { scheme := KeyScheme.imOnline, data :=
       "0x025c76d4c6369a8c8cb9a74dd91c11d233c0b15767359b404d2f4032f7129302" }
     authority_discovery := { scheme := KeyScheme.authorityDiscovery, data :=
       "0x36782cdf9ee4a785e783580c10cfb9642c9ee11571521a20da22fb08de1dc870" } },
   { validator :=
       "0xc2bbd792a03d62c5f917a6ca0ca6c1513201900b90b555885a26cc90cbef2455"
     referral_id := "rjman1"
     babe := { scheme := KeyScheme.babe, data :=
       "0x1e6ffbb4f23e91fd42374d1f4e71df694645826b5fe523de83010d17a82fe873" }
     grandpa := { scheme := KeyScheme.grandpa, data :=
       "0xa245f00894861c4d597ceaf8d195a240f87aabc5d4e7a6b0a8c5087bc9958e5f" }
     im_online := { scheme := KeyScheme.imOnline, data :=
       "0xc25d04e2d13cfbbed3323dbb69cebe52e4a57f4d29a4e0e1fe4c982df124a643" }
     authority_discovery := { scheme := KeyScheme.authorityDiscovery, data :=
       "0xc48b6f712581ca56eacc992071abf5224c95e955d1285698e6a2fafae429b80a" } }]

/-- The genesis constructor of `fork_config_raw`: `mainnet_genesis` on the
two hex-literal authorities. -/
def fork_genesis : Option MalanGenesisConfig :=
  mainnet_genesis dev_wasm fork_initial_authorities fork_root_key
    fork_root_key genesis_assets btc_genesis_params_testnet
    local_testnet_trustees

/-- The sum of a balances ledger: the arithmetic total of the amounts. -/
def sumBalances (l : List (AccountId × Balance)) : Nat :=
  (l.map Prod.snd).sum

/-- The PCX entry of the local-testnet endowment table: the twelve accounts,
each at `balance(endowed_balance, PCX_DECIMALS)`. -/
def local_testnet_pcx_accounts : List (AccountId × Balance) :=
  (local_testnet_seeds.map (fun s => (s, endowed_balance))).map (fun sv =>
    (get_account_id_from_seed sv.1, balance sv.2 PCX_DECIMALS))

/-- The configuration the local-testnet constructor builds (its build
succeeds, witnessed by evaluation). -/
def local_testnet_cfg : DevGenesisConfig :=
  local_testnet_genesis.get (by rfl)

/-- An authority list holding the Alice authority tuple twice: the builders
accept it unchanged (no distinctness check exists in the source). -/
def dup_authorities : List AuthorityKeysTuple :=
  [authority_keys_from_seed "Alice", authority_keys_from_seed "Alice"]

/-- `build_genesis` on the duplicate authority list (development endowment
table otherwise). -/
def dup_authorities_genesis : Option DevGenesisConfig :=
  build_genesis dev_wasm dup_authorities (get_account_id_from_seed "Alice")
    (get_account_id_from_seed "vesting") genesis_assets development_endowed
    btc_genesis_params_testnet local_testnet_trustees

/-- A trustee-triple list whose Bitcoin entry carries an empty trustee-key
list. -/
def empty_btc_trustees :
    List (Chain × TrusteeInfoConfig × List BtcTrusteeParams) :=
  [(Chain.bitcoin, { min_trustee_count := 3, max_trustee_count := 15 }, [])]

/-- `build_genesis` on `empty_btc_trustees` (development inputs otherwise). -/
def empty_btc_trustees_genesis : Option DevGenesisConfig :=
  build_genesis dev_wasm [authority_keys_from_seed "Alice"]
    (get_account_id_from_seed "Alice") (get_account_id_from_seed "vesting")
    genesis_assets development_endowed btc_genesis_params_testnet
    empty_btc_trustees

end ChainSpec

namespace TxFee

/-- The fee module is generic over `Balance: AtLeast32BitUnsigned`; the
algebra of `add_extra_fee_or_not` is embedded over the naturals. -/
abbrev Balance := Nat

/-- `pallet_transaction_payment::InclusionFee<Balance>`. Modelled from the
spec: the pallet is not under `src/`; it is the base fee, the length fee and
the weight fee of an included transaction. -/
structure InclusionFee where
  base_fee : Balance
  len_fee : Balance
  adjusted_weight_fee : Balance
deriving DecidableEq, Inhabited, Repr

/-- `InclusionFee::inclusion_fee()`: the total of the three parts. -/
def InclusionFee.inclusion_fee (i : InclusionFee) : Balance :=
  i.base_fee + i.len_fee + i.adjusted_weight_fee

/-- `pallet_transaction_payment::FeeDetails<Balance>`. Modelled from the
spec: the optional inclusion fee (`Pays::Yes` only) together with the tip. -/
structure BaseFeeDetails where
  inclusion_fee : Option InclusionFee
  tip : Balance
deriving DecidableEq, Inhabited, Repr

/-- `pallet_transaction_payment::FeeDetails::final_fee()`: per the doc
comment of `types.rs`, `final_fee = inclusion_fee + tip`. -/
def BaseFeeDetails.final_fee (d : BaseFeeDetails) : Balance :=
  (d.inclusion_fee.map InclusionFee.inclusion_fee).getD 0 + d.tip

/-- `xpallet_transaction_fee::FeeDetails<Balance>` of `types.rs`. -/
structure FeeDetails where
  inclusion_fee : Option InclusionFee
  tip : Balance
  extra_fee : Balance
  final_fee : Balance
deriving DecidableEq, Inhabited, Repr

/-- The `From<pallet_transaction_payment::FeeDetails<Balance>>` conversion of
`types.rs`: carries the inclusion fee and the tip over and zeroes
`extra_fee` and `final_fee`. -/
def FeeDetails.ofBase (details : BaseFeeDetails) : FeeDetails :=
  { inclusion_fee := details.inclusion_fee
    tip := details.tip
    extra_fee := 0
    final_fee := 0 }

/-- `FeeDetails::add_extra_fee_or_not(extra_fee, base)` of `types.rs`:
with `Some(fee)` the final fee is the base's final fee plus the extra fee;
with `None` the final fee is the tip alone; the remaining fields come from
the `From` conversion (`..base.into()`). -/
def FeeDetails.add_extra_fee_or_not (extra_fee : Option Balance)
    (base : BaseFeeDetails) : FeeDetails :=
  match extra_fee with
  | some fee =>
      { FeeDetails.ofBase base with
          extra_fee := fee
          final_fee := base.final_fee + fee }
  | none =>
      { FeeDetails.ofBase base with
          extra_fee := 0
          final_fee := base.tip }

end TxFee

namespace ChainSpec

theorem sum_map_const {α : Type} (l : List α) (c : Nat) :
    (l.map (fun _ => c)).sum = l.length * c := by
  induction l with
  | nil => simp
  | cons a t ih => simp [ih, Nat.succ_mul, Nat.add_comm]

theorem lookup_filter_ne {β : Type} (l : List (Nat × β)) (k : Nat) :
    (l.filter (fun kv => kv.1 != k)).lookup k = none := by
  induction l with
  | nil => rfl
  | cons a t ih =>
      by_cases h : a.1 = k
      · simp [List.filter_cons, h, ih]
      · have hk : (k == a.1) = false := by
          rw [beq_eq_false_iff_ne]
          exact fun hh => h hh.symm
        simp [List.filter_cons, h, List.lookup, hk, ih]

theorem btc_trustee_extract_eq
    (t : List (Chain × TrusteeInfoConfig × List BtcTrusteeParams)) :
    btc_trustee_extract t
      = (first_bitcoin_params t).map (fun ps => ps.map (fun i => i.first)) := by
  induction t with
  | nil => rfl
  | cons a t ih =>
      by_cases h : a.1 = Chain.bitcoin
      · simp [btc_trustee_extract, first_bitcoin_params, List.findSome?_cons,
          h]
      · simp only [btc_trustee_extract, first_bitcoin_params,
          List.findSome?_cons, if_neg h] at ih ⊢
        exact ih

theorem first_bitcoin_params_none
    (t : List (Chain × TrusteeInfoConfig × List BtcTrusteeParams))
    (h : ∀ entry ∈ t, entry.1 ≠ Chain.bitcoin) :
    first_bitcoin_params t = none := by
  induction t with
  | nil => rfl
  | cons a t ih =>
      have ha := h a (List.mem_cons_self a t)
      have ht : ∀ entry ∈ t, entry.1 ≠ Chain.bitcoin :=
        fun e he => h e (List.mem_cons_of_mem a he)
      have ih' := ih ht
      simp only [first_bitcoin_params, List.findSome?_cons, ha, if_neg ha]
      exact ih'

theorem build_genesis_none_of_no_pcx
    (w : List Nat) (ia : List AuthorityKeysTuple) (r v : AccountId)
    (a : List AssetParams) (e : List (AssetId × List (AccountId × Balance)))
    (b : BtcGenesisParams)
    (t : List (Chain × TrusteeInfoConfig × List BtcTrusteeParams))
    (h : e.lookup PCX = none) :
    build_genesis w ia r v a e b t = none := by
  simp [build_genesis, h]

theorem build_genesis_some_inv
    (w : List Nat) (ia : List AuthorityKeysTuple) (r v : AccountId)
    (a : List AssetParams) (e : List (AssetId × List (AccountId × Balance)))
    (b : BtcGenesisParams)
    (t : List (Chain × TrusteeInfoConfig × List BtcTrusteeParams))
    (cfg : DevGenesisConfig)
    (hc : build_genesis w ia r v a e b t = some cfg) :
    ∃ l ks, e.lookup PCX = some l ∧ btc_trustee_extract t = some ks ∧
      cfg.balances = l.map (fun kv => (kv.1, ENDOWMENT)) ∧
      cfg.assets_endowed = e.filter (fun kv => kv.1 != PCX) ∧
      cfg.validators
        = ia.map (fun x => (x.validator, x.referral_id, STAKING_LOCKED)) ∧
      cfg.session_keys
        = ia.map (fun x => (x.validator, x.validator,
            dev_session_keys x.babe x.grandpa x.im_online
              x.authority_discovery)) ∧
      cfg.genesis_trustees = ks := by
  cases h1 : e.lookup PCX with
  | none => simp [build_genesis, h1] at hc
  | some l =>
      cases h2 : btc_trustee_extract t with
      | none => simp [build_genesis, h1, h2] at hc
      | some ks =>
          refine ⟨l, ks, rfl, rfl, ?_⟩
          simp only [build_genesis, h1, h2, Option.pure_def,
            Option.bind_eq_bind, Option.some_bind, Option.some.injEq] at hc
          subst hc
          exact ⟨rfl, rfl, rfl, rfl, rfl⟩

theorem build_genesis_none_of_no_btc
    (w : List Nat) (ia : List AuthorityKeysTuple) (r v : AccountId)
    (a : List AssetParams) (e : List (AssetId × List (AccountId × Balance)))
    (b : BtcGenesisParams)
    (t : List (Chain × TrusteeInfoConfig × List BtcTrusteeParams))
    (h : btc_trustee_extract t = none) :
    build_genesis w ia r v a e b t = none := by
  cases h1 : e.lookup PCX with
  | none => simp [build_genesis, h1]
  | some l => simp [build_genesis, h1, h]

/-- C1 (counterexample): the local-testnet profile seeds twelve accounts at
`balance(50 * DEV_DOLLARS, PCX_DECIMALS)` each, yet the native total the
builder places in the balances ledger is `12 * ENDOWMENT`
(`12 * 10^7 * DEV_DOLLARS`), not the `600 * 10^PCX_DECIMALS` the claim
declares: `build_genesis` credits every endowed account the constant
`ENDOWMENT`, ignoring the amounts of the endowment table. -/
theorem C1_counterexample :
    (local_testnet_genesis.map (fun c => sumBalances c.balances))
      = some (12 * ENDOWMENT)
    ∧ 12 * ENDOWMENT ≠ 600 * 10 ^ PCX_DECIMALS :=
  ⟨by decide, by decide⟩

/-- C1 (amended): for every endowment table whose PCX entry lists `l`, the
sum of the native balances the builder places in the ledger equals
`l.length * ENDOWMENT` — each account is credited the profile constant
`ENDOWMENT`, the table's amounts being ignored — which is also the value the
`total_endowed` accumulator reaches. -/
theorem C1_amended
    (w : List Nat) (ia : List AuthorityKeysTuple) (r v : AccountId)
    (a : List AssetParams) (e : List (AssetId × List (AccountId × Balance)))
    (b : BtcGenesisParams)
    (t : List (Chain × TrusteeInfoConfig × List BtcTrusteeParams))
    (l : List (AccountId × Balance)) (h1 : e.lookup PCX = some l)
    (cfg : DevGenesisConfig)
    (hc : build_genesis w ia r v a e b t = some cfg) :
    sumBalances cfg.balances = l.length * ENDOWMENT := by
  obtain ⟨l', ks, h1', h2', hb, -, -, -, -⟩ :=
    build_genesis_some_inv w ia r v a e b t cfg hc
  rw [h1] at h1'
  injection h1' with hl
  subst hl
  rw [hb]
  simp only [sumBalances, List.map_map]
  exact sum_map_const l ENDOWMENT

/-- C1 (witness of the amended claim): the local-testnet build succeeds and
its native ledger totals `12 * ENDOWMENT`. -/
theorem C1_amended_witness :
    sumBalances local_testnet_cfg.balances = 12 * ENDOWMENT :=
  C1_amended dev_wasm local_testnet_authorities
    (get_account_id_from_seed "Alice") (get_account_id_from_seed "vesting")
    genesis_assets local_testnet_endowed btc_genesis_params_testnet
    local_testnet_trustees local_testnet_pcx_accounts rfl
    local_testnet_cfg (Option.some_get (by rfl)).symm

/-- C2 (counterexample): the live/fork profile's builder `mainnet_genesis`
inserts asset id `1` — the native asset id — as a key of the multi-asset
endowment map (`assets_endowed.insert(1, balances.clone())`), so on the fork
profile's own inputs the native id does appear as a key. -/
theorem C2_counterexample :
    (fork_genesis.map (fun c => (c.assets_endowed.map Prod.fst).contains PCX))
      = some true := by decide

/-- C2 (amended): for every configuration produced by `build_genesis` (the
development, benchmarks and local-testnet profiles) the native asset id is
absent from the multi-asset endowment map — the builder removes the PCX key;
the live/fork profile's `mainnet_genesis` violates the original claim. -/
theorem C2_amended
    (w : List Nat) (ia : List AuthorityKeysTuple) (r v : AccountId)
    (a : List AssetParams) (e : List (AssetId × List (AccountId × Balance)))
    (b : BtcGenesisParams)
    (t : List (Chain × TrusteeInfoConfig × List BtcTrusteeParams))
    (cfg : DevGenesisConfig)
    (hc : build_genesis w ia r v a e b t = some cfg) :
    cfg.assets_endowed.lookup PCX = none := by
  obtain ⟨l, ks, -, -, -, hae, -, -, -⟩ :=
    build_genesis_some_inv w ia r v a e b t cfg hc
  rw [hae]
  exact lookup_filter_ne e PCX

/-- C2 (witness of the amended claim): the local-testnet configuration holds
no PCX key in its multi-asset endowment map. -/
theorem C2_amended_witness :
    local_testnet_cfg.assets_endowed.lookup PCX = none :=
  C2_amended dev_wasm local_testnet_authorities
    (get_account_id_from_seed "Alice") (get_account_id_from_seed "vesting")
    genesis_assets local_testnet_endowed btc_genesis_params_testnet
    local_testnet_trustees local_testnet_cfg
    (Option.some_get (by rfl)).symm

/-- C3 (counterexample): a trustee-triple list whose Bitcoin entry carries an
empty trustee list is accepted — the build succeeds and the extracted
Bitcoin genesis-trustee list is empty, refuting "is never empty" (no
non-emptiness check exists in the builders). -/
theorem C3_counterexample :
    (empty_btc_trustees_genesis.map (fun c => c.genesis_trustees))
      = some [] := by decide

/-- C3 (amended): the extracted Bitcoin genesis-trustee list is exactly the
first public-key component of each entry of the (first) Bitcoin triple, order
preserved, so its length equals the triple's entry count; it is non-empty
precisely when that triple's entry list is non-empty (the builder performs no
non-emptiness check). -/
theorem C3_amended
    (w : List Nat) (ia : List AuthorityKeysTuple) (r v : AccountId)
    (a : List AssetParams) (e : List (AssetId × List (AccountId × Balance)))
    (b : BtcGenesisParams)
    (t : List (Chain × TrusteeInfoConfig × List BtcTrusteeParams))
    (ps : List BtcTrusteeParams) (hps : first_bitcoin_params t = some ps)
    (cfg : DevGenesisConfig)
    (hc : build_genesis w ia r v a e b t = some cfg) :
    cfg.genesis_trustees = ps.map (fun i => i.first)
    ∧ cfg.genesis_trustees.length = ps.length := by
  obtain ⟨l, ks, -, h2, -, -, -, -, hg⟩ :=
    build_genesis_some_inv w ia r v a e b t cfg hc
  rw [btc_trustee_extract_eq, hps, Option.map_some'] at h2
  injection h2 with h2
  rw [hg, ← h2]
  exact ⟨rfl, by simp⟩

/-- C3 (witness of the amended claim): the local-testnet trustee list has the
three configured Bitcoin trustees, in order. -/
theorem C3_amended_witness :
    local_testnet_cfg.genesis_trustees
        = local_testnet_btc_trustee_params.map (fun i => i.first)
    ∧ local_testnet_cfg.genesis_trustees.length
        = local_testnet_btc_trustee_params.length :=
  C3_amended dev_wasm local_testnet_authorities
    (get_account_id_from_seed "Alice") (get_account_id_from_seed "vesting")
    genesis_assets local_testnet_endowed btc_genesis_params_testnet
    local_testnet_trustees local_testnet_btc_trustee_params rfl
    local_testnet_cfg (Option.some_get (by rfl)).symm

/-- C4 (counterexample): on an authority list holding the Alice tuple twice
the builder succeeds, and Alice's staking account is the account of two
session-key bindings (and of two validators) — not of exactly one; the
builders never check distinctness. -/
theorem C4_counterexample :
    (dup_authorities_genesis.map (fun c =>
        ((c.validators.map (fun x => x.1)).count
           (get_account_id_from_seed "Alice"),
         (c.session_keys.map (fun x => x.1)).count
           (get_account_id_from_seed "Alice"))))
      = some (2, 2) := by decide

/-- C4 (amended): the validator list, the session-key binding list and the
input authority list always have the same length, and position by position
the validator's staking account is the session-key binding's account (so the
1:1 correspondence holds with multiplicity; "exactly one" holds whenever the
input accounts are pairwise distinct). -/
theorem C4_amended
    (w : List Nat) (ia : List AuthorityKeysTuple) (r v : AccountId)
    (a : List AssetParams) (e : List (AssetId × List (AccountId × Balance)))
    (b : BtcGenesisParams)
    (t : List (Chain × TrusteeInfoConfig × List BtcTrusteeParams))
    (cfg : DevGenesisConfig)
    (hc : build_genesis w ia r v a e b t = some cfg) :
    cfg.validators.length = ia.length
    ∧ cfg.session_keys.length = ia.length
    ∧ cfg.validators.map (fun x => x.1)
        = cfg.session_keys.map (fun x => x.1) := by
  obtain ⟨l, ks, -, -, -, -, hv, hs, -⟩ :=
    build_genesis_some_inv w ia r v a e b t cfg hc
  rw [hv, hs]
  refine ⟨by simp, by simp, ?_⟩
  simp [List.map_map]

/-- C4 (witness of the amended claim): instantiated on the local-testnet
profile's two authorities. -/
theorem C4_amended_witness :
    local_testnet_cfg.validators.length = local_testnet_authorities.length
    ∧ local_testnet_cfg.session_keys.length
        = local_testnet_authorities.length
    ∧ local_testnet_cfg.validators.map (fun x => x.1)
        = local_testnet_cfg.session_keys.map (fun x => x.1) :=
  C4_amended dev_wasm local_testnet_authorities
    (get_account_id_from_seed "Alice") (get_account_id_from_seed "vesting")
    genesis_assets local_testnet_endowed btc_genesis_params_testnet
    local_testnet_trustees local_testnet_cfg
    (Option.some_get (by rfl)).symm

/-- C5 (code divergence): the scaling arithmetic of `fn balance` is the plain
`u128` multiplication, which wraps under the default release profile instead
of failing: at `input = 2^127`, `decimals = 1` the exact product reaches
`5 * 2^128`, beyond the `Balance` representation, and the code returns the
wrapped value `0` — assembly proceeds, it does not fail fatally. -/
theorem C5_balance_wraps :
    balance (2 ^ 127) 1 = 0 ∧ U128_MOD ≤ 2 ^ 127 * 10 ^ 1 :=
  ⟨by decide, by decide⟩

/-- C6: the Bitcoin trustee lookup of `build_genesis`: a trustee-triple list
with no Bitcoin-tagged entry aborts the build fatally (no configuration is
produced); when a Bitcoin entry is present (and the PCX precondition holds so
the build reaches the lookup) the build succeeds and the genesis-trustee list
is extracted from that (first) Bitcoin entry. -/
theorem C6_bitcoin_lookup
    (w : List Nat) (ia : List AuthorityKeysTuple) (r v : AccountId)
    (a : List AssetParams) (e : List (AssetId × List (AccountId × Balance)))
    (b : BtcGenesisParams)
    (t : List (Chain × TrusteeInfoConfig × List BtcTrusteeParams)) :
    ((∀ entry ∈ t, entry.1 ≠ Chain.bitcoin) →
       build_genesis w ia r v a e b t = none)
    ∧ (∀ l ps, e.lookup PCX = some l → first_bitcoin_params t = some ps →
       (build_genesis w ia r v a e b t).map (fun c => c.genesis_trustees)
         = some (ps.map (fun i => i.first))) := by
  constructor
  · intro h
    apply build_genesis_none_of_no_btc
    rw [btc_trustee_extract_eq, first_bitcoin_params_none t h]
    rfl
  · intro l ps h1 hps
    have h2 : btc_trustee_extract t = some (ps.map (fun i => i.first)) := by
      rw [btc_trustee_extract_eq, hps]
      rfl
    simp [build_genesis, h1, h2, Option.pure_def, Option.bind_eq_bind]

/-- C6 (witness): with no Bitcoin entry the local-testnet build aborts; with
the configured trustee list it succeeds and extracts the three trustees. -/
theorem C6_bitcoin_lookup_witness :
    build_genesis dev_wasm local_testnet_authorities
        (get_account_id_from_seed "Alice") (get_account_id_from_seed "vesting")
        genesis_assets local_testnet_endowed btc_genesis_params_testnet []
      = none
    ∧ (local_testnet_genesis.map (fun c => c.genesis_trustees))
      = some (local_testnet_btc_trustee_params.map (fun i => i.first)) :=
  ⟨(C6_bitcoin_lookup dev_wasm local_testnet_authorities
      (get_account_id_from_seed "Alice") (get_account_id_from_seed "vesting")
      genesis_assets local_testnet_endowed btc_genesis_params_testnet []).1
    (by intro entry h; exact absurd h (List.not_mem_nil entry)),
   (C6_bitcoin_lookup dev_wasm local_testnet_authorities
      (get_account_id_from_seed "Alice") (get_account_id_from_seed "vesting")
      genesis_assets local_testnet_endowed btc_genesis_params_testnet
      local_testnet_trustees).2
    local_testnet_pcx_accounts local_testnet_btc_trustee_params rfl rfl⟩

/-- C7: in the non-live builder `build_genesis` the validator list is the
input authority list mapped, in order, to
`(account, referral id, STAKING_LOCKED)`: one profile-wide stake constant for
every validator, order exactly the input order, no re-sorting. -/
theorem C7_validator_construction
    (w : List Nat) (ia : List AuthorityKeysTuple) (r v : AccountId)
    (a : List AssetParams) (e : List (AssetId × List (AccountId × Balance)))
    (b : BtcGenesisParams)
    (t : List (Chain × TrusteeInfoConfig × List BtcTrusteeParams))
    (cfg : DevGenesisConfig)
    (hc : build_genesis w ia r v a e b t = some cfg) :
    cfg.validators
      = ia.map (fun x => (x.validator, x.referral_id, STAKING_LOCKED)) := by
  obtain ⟨l, ks, -, -, -, -, hv, -, -⟩ :=
    build_genesis_some_inv w ia r v a e b t cfg hc
  exact hv

/-- C7 (witness): the local-testnet validators are Alice and Bob, in order,
each at `STAKING_LOCKED`. -/
theorem C7_validator_construction_witness :
    local_testnet_cfg.validators
      = local_testnet_authorities.map
          (fun x => (x.validator, x.referral_id, STAKING_LOCKED)) :=
  C7_validator_construction dev_wasm local_testnet_authorities
    (get_account_id_from_seed "Alice") (get_account_id_from_seed "vesting")
    genesis_assets local_testnet_endowed btc_genesis_params_testnet
    local_testnet_trustees local_testnet_cfg
    (Option.some_get (by rfl)).symm

/-- C8: the seed-to-key derivation (and the seed-to-account derivation) is a
deterministic function of the seed and the key scheme alone: two invocations
on equal seeds yield identical output. -/
theorem C8_determinism (scheme : KeyScheme) (s1 s2 : String) (h : s1 = s2) :
    get_from_seed scheme s1 = get_from_seed scheme s2
    ∧ get_account_id_from_seed s1 = get_account_id_from_seed s2 := by
  subst h
  exact ⟨rfl, rfl⟩

/-- C8 (witness): two invocations on the seed "Alice" agree. -/
theorem C8_determinism_witness :
    get_from_seed KeyScheme.babe "Alice" = get_from_seed KeyScheme.babe "Alice"
    ∧ get_account_id_from_seed "Alice" = get_account_id_from_seed "Alice" :=
  C8_determinism KeyScheme.babe "Alice" "Alice" rfl

/-- C10: `build_genesis` requires the endowment map to hold the native PCX
key: lacking it, assembly aborts fatally (`none`) — no partial configuration
is ever produced. -/
theorem C10_pcx_precondition
    (w : List Nat) (ia : List AuthorityKeysTuple) (r v : AccountId)
    (a : List AssetParams) (e : List (AssetId × List (AccountId × Balance)))
    (b : BtcGenesisParams)
    (t : List (Chain × TrusteeInfoConfig × List BtcTrusteeParams))
    (h : e.lookup PCX = none) :
    build_genesis w ia r v a e b t = none :=
  build_genesis_none_of_no_pcx w ia r v a e b t h

/-- C10 (witness): on an empty endowment map (no PCX key) the development
inputs produce no configuration. -/
theorem C10_pcx_precondition_witness :
    build_genesis dev_wasm [authority_keys_from_seed "Alice"]
      (get_account_id_from_seed "Alice") (get_account_id_from_seed "vesting")
      genesis_assets [] btc_genesis_params_testnet local_testnet_trustees
      = none :=
  C10_pcx_precondition dev_wasm [authority_keys_from_seed "Alice"]
    (get_account_id_from_seed "Alice") (get_account_id_from_seed "vesting")
    genesis_assets [] btc_genesis_params_testnet local_testnet_trustees rfl

end ChainSpec

/-- C9: `FeeDetails::add_extra_fee_or_not`: with `Some(f)` the result's
`extra_fee` is `f` and its `final_fee` is the base's final fee (inclusion fee
plus tip) plus `f`; with `None` the result's `extra_fee` is `0` and its
`final_fee` is the base's tip alone, the inclusion fee excluded. -/
theorem C9_add_extra_fee_or_not (f : TxFee.Balance)
    (base : TxFee.BaseFeeDetails) :
    (TxFee.FeeDetails.add_extra_fee_or_not (some f) base).extra_fee = f
    ∧ (TxFee.FeeDetails.add_extra_fee_or_not (some f) base).final_fee
        = base.final_fee + f
    ∧ (TxFee.FeeDetails.add_extra_fee_or_not none base).extra_fee = 0
    ∧ (TxFee.FeeDetails.add_extra_fee_or_not none base).final_fee
        = base.tip :=
  ⟨rfl, rfl, rfl, rfl⟩
